import Mathlib

/-!
Verification of the single-block AES core in `src/lib.rs` of the rust_aes
repository.  The 16-byte grid of an `AESBlock` is embedded as a `List Nat`
whose elements are byte values; every function below is a direct shallow
embedding of the corresponding Rust method.  Rust `u8` arithmetic appears as
`Nat` arithmetic with an explicit `% 256` exactly where the `u8` operation can
overflow (only the left shift inside the column mix); `^` on `u8` is `Nat.xor`,
which preserves `< 256`.  In-bounds slice indexing `xs[i]` is embedded as
`List.getD xs i default`; all theorems below only evaluate it in bounds.
-/

set_option maxRecDepth 100000

/-- The 256-entry `S_BOX` constant of `impl AESBlock<DecryptedState>`
(lines 28-43 of `src/lib.rs`), with the Rust `&u8` references replaced by the
byte values they point at. -/
def sBox : List Nat := [
  0x63,0x7c,0x77,0x7b,0xf2,0x6b,0x6f,0xc5,0x30,0x01,0x67,0x2b,0xfe,0xd7,0xab,0x76,
  0xca,0x82,0xc9,0x7d,0xfa,0x59,0x47,0xf0,0xad,0xd4,0xa2,0xaf,0x9c,0xa4,0x72,0xc0,
  0xb7,0xfd,0x93,0x26,0x36,0x3f,0xf7,0xcc,0x34,0xa5,0xe5,0xf1,0x71,0xd8,0x31,0x15,
  0x04,0xc7,0x23,0xc3,0x18,0x96,0x05,0x9a,0x07,0x12,0x80,0xe2,0xeb,0x27,0xb2,0x75,
  0x09,0x83,0x2c,0x1a,0x1b,0x6e,0x5a,0xa0,0x52,0x3b,0xd6,0xb3,0x29,0xe3,0x2f,0x84,
  0x53,0xd1,0x00,0xed,0x20,0xfc,0xb1,0x5b,0x6a,0xcb,0xbe,0x39,0x4a,0x4c,0x58,0xcf,
  0xd0,0xef,0xaa,0xfb,0x43,0x4d,0x33,0x85,0x45,0xf9,0x02,0x7f,0x50,0x3c,0x9f,0xa8,
  0x51,0xa3,0x40,0x8f,0x92,0x9d,0x38,0xf5,0xbc,0xb6,0xda,0x21,0x10,0xff,0xf3,0xd2,
  0xcd,0x0c,0x13,0xec,0x5f,0x97,0x44,0x17,0xc4,0xa7,0x7e,0x3d,0x64,0x5d,0x19,0x73,
  0x60,0x81,0x4f,0xdc,0x22,0x2a,0x90,0x88,0x46,0xee,0xb8,0x14,0xde,0x5e,0x0b,0xdb,
  0xe0,0x32,0x3a,0x0a,0x49,0x06,0x24,0x5c,0xc2,0xd3,0xac,0x62,0x91,0x95,0xe4,0x79,
  0xe7,0xc8,0x37,0x6d,0x8d,0xd5,0x4e,0xa9,0x6c,0x56,0xf4,0xea,0x65,0x7a,0xae,0x08,
  0xba,0x78,0x25,0x2e,0x1c,0xa6,0xb4,0xc6,0xe8,0xdd,0x74,0x1f,0x4b,0xbd,0x8b,0x8a,
  0x70,0x3e,0xb5,0x66,0x48,0x03,0xf6,0x0e,0x61,0x35,0x57,0xb9,0x86,0xc1,0x1d,0x9e,
  0xe1,0xf8,0x98,0x11,0x69,0xd9,0x8e,0x94,0x9b,0x1e,0x87,0xe9,0xce,0x55,0x28,0xdf,
  0x8c,0xa1,0x89,0x0d,0xbf,0xe6,0x42,0x68,0x41,0x99,0x2d,0x0f,0xb0,0x54,0xbb,0x16]

/-- `AESBlock::<DecryptedState>::new` (lines 45-50): stores the supplied bytes
as the grid without any validation; a block is identified with its grid. -/
def new (data : List Nat) : List Nat :=
  data

/-- `AESBlock::add_roundkey` (lines 217-223): `result` has `data.len()`
entries and `result[idx] = data[idx] ^ roundkey[idx]`. -/
def add_roundkey (data roundkey : List Nat) : List Nat :=
  (List.range data.length).map fun idx => (data.getD idx 0) ^^^ (roundkey.getD idx 0)

/-- `AESBlock::<DecryptedState>::shift_row` (lines 87-94): starts from a zero
vector of `row.len()` entries and writes
`result[(idx + row.len() - shift) % row.len()] = row[idx]` for each index. -/
def shift_row (row : List Nat) (shift : Nat) : List Nat :=
  (List.range row.length).foldl
    (fun result idx => result.set ((idx + row.length - shift) % row.length) (row.getD idx 0))
    (List.replicate row.length 0)

/-- Rust `data.chunks(4)`: consecutive chunks of four bytes, with a shorter
final chunk when the length is not a multiple of four. -/
def chunks4 : List Nat → List (List Nat)
  | a :: b :: c :: d :: rest => [a, b, c, d] :: chunks4 rest
  | [] => []
  | rest => [rest]

/-- `AESBlock::<DecryptedState>::shift_grid` (lines 109-116): each 4-byte
chunk (row, in row-major order) is shifted by its row index and spliced back
at its position.  For the 16-byte grids the cipher uses, splicing the shifted
chunks into `idx*4 .. idx*4+4` is exactly their concatenation. -/
def shift_grid (data : List Nat) : List Nat :=
  ((chunks4 data).enum.map fun p => shift_row p.2 p.1).flatten

/-- The doubling in GF(2^8) computed inline by `mix_column` (lines 132-137):
`b[c] = data[c] << 1; b[c] ^= ((data[c] >> 7) & 1) * 0x1B`, on `u8`. -/
def xtime (v : Nat) : Nat :=
  ((v <<< 1) % 256) ^^^ (((v >>> 7) &&& 1) * 0x1B)

/-- `AESBlock::<DecryptedState>::mix_column` (lines 127-143): `a` is the
column, `b` its GF(2^8) doubling, and the four outputs are the XOR
combinations written in the source. -/
def mix_column (data : List Nat) : List Nat :=
  let a := data
  let b := data.map xtime
  [ b.getD 0 0 ^^^ a.getD 3 0 ^^^ a.getD 2 0 ^^^ b.getD 1 0 ^^^ a.getD 1 0,
    b.getD 1 0 ^^^ a.getD 0 0 ^^^ a.getD 3 0 ^^^ b.getD 2 0 ^^^ a.getD 2 0,
    b.getD 2 0 ^^^ a.getD 1 0 ^^^ a.getD 0 0 ^^^ b.getD 3 0 ^^^ a.getD 3 0,
    b.getD 3 0 ^^^ a.getD 2 0 ^^^ a.getD 1 0 ^^^ b.getD 0 0 ^^^ a.getD 0 0 ]

/-- Rust `data.iter().skip(j).step_by(4)` on the 16-byte grid: column `j` of
the 4x4 row-major grid. -/
def col (data : List Nat) (j : Nat) : List Nat :=
  [data.getD j 0, data.getD (j + 4) 0, data.getD (j + 8) 0, data.getD (j + 12) 0]

/-- `AESBlock::<DecryptedState>::mix_columns` (lines 156-162): mixes the four
strided columns and reassembles the 16 bytes in row-major order. -/
def mix_columns (data : List Nat) : List Nat :=
  let col1 := mix_column (col data 0)
  let col2 := mix_column (col data 1)
  let col3 := mix_column (col data 2)
  let col4 := mix_column (col data 3)
  [col1.getD 0 0, col2.getD 0 0, col3.getD 0 0, col4.getD 0 0,
   col1.getD 1 0, col2.getD 1 0, col3.getD 1 0, col4.getD 1 0,
   col1.getD 2 0, col2.getD 2 0, col3.getD 2 0, col4.getD 2 0,
   col1.getD 3 0, col2.getD 3 0, col3.getD 3 0, col4.getD 3 0]

/-- `AESBlock::<DecryptedState>::sub_bytes` (lines 172-178): `result` has
`data.len()` entries and `result[idx] = S_BOX[data[idx]]`. -/
def sub_bytes (data : List Nat) : List Nat :=
  (List.range data.length).map fun idx => sBox.getD (data.getD idx 0) 0

/-- `AESBlock::<DecryptedState>::encrypt` (lines 60-76).  The Rust loop is
`for (idx, _) in roundkeys.iter().skip(1).enumerate()`, so `idx` runs over
`0 .. roundkeys.len() - 2`, which is `List.range (roundkeys.length - 1)`.
Inside the loop the state is substituted, shifted, column-mixed unless
`idx == roundkeys.len() - 1`, and XORed with `roundkeys[idx]`. -/
def encrypt (grid : List Nat) (roundkeys : List (List Nat)) : List Nat :=
  (List.range (roundkeys.length - 1)).foldl
    (fun result idx =>
      let result := sub_bytes result
      let result := shift_grid result
      let result := if idx ≠ roundkeys.length - 1 then mix_columns result else result
      add_roundkey result (roundkeys.getD idx []))
    (add_roundkey grid (roundkeys.getD 0 []))

/-- `AESBlock::<EncryptedState>::decrypt` (lines 195-200): a stub that ignores
the round keys and the inverse table and returns `self.grid.clone()`. -/
def decrypt (grid : List Nat) (roundkeys : List (List Nat)) (invTable : List Nat) : List Nat :=
  grid

/-- The round sequence as section 4.6 of the specification states it, over the
same transformations: `state = AddRoundKey(block, schedule[0])`, then for round
`i` in `1 .. N-1` the state becomes
`AddRoundKey(MixColumns(ShiftRows(SubBytes(state))), schedule[i])`, except the
final round (`i = N-1`) omits MixColumns.  This is the comparison point for
the refinement claim about `encrypt`; it is built from the spec text, not from
the source. -/
def spec_round_sequence (grid : List Nat) (roundkeys : List (List Nat)) : List Nat :=
  (List.range (roundkeys.length - 1)).foldl
    (fun state i0 =>
      let i := i0 + 1
      let s := shift_grid (sub_bytes state)
      let s := if i ≠ roundkeys.length - 1 then mix_columns s else s
      add_roundkey s (roundkeys.getD i []))
    (add_roundkey grid (roundkeys.getD 0 []))

/-- The FIPS-197 example plaintext `00112233445566778899aabbccddeeff`. -/
def fips_plain : List Nat :=
  [0x00,0x11,0x22,0x33,0x44,0x55,0x66,0x77,0x88,0x99,0xaa,0xbb,0xcc,0xdd,0xee,0xff]

/-- The 11 round keys of the FIPS-197 AES-128 key expansion of the key
`000102030405060708090a0b0c0d0e0f`. -/
def fips_schedule : List (List Nat) := [
  [0x00,0x01,0x02,0x03,0x04,0x05,0x06,0x07,0x08,0x09,0x0a,0x0b,0x0c,0x0d,0x0e,0x0f],
  [0xd6,0xaa,0x74,0xfd,0xd2,0xaf,0x72,0xfa,0xda,0xa6,0x78,0xf1,0xd6,0xab,0x76,0xfe],
  [0xb6,0x92,0xcf,0x0b,0x64,0x3d,0xbd,0xf1,0xbe,0x9b,0xc5,0x00,0x68,0x30,0xb3,0xfe],
  [0xb6,0xff,0x74,0x4e,0xd2,0xc2,0xc9,0xbf,0x6c,0x59,0x0c,0xbf,0x04,0x69,0xbf,0x41],
  [0x47,0xf7,0xf7,0xbc,0x95,0x35,0x3e,0x03,0xf9,0x6c,0x32,0xbc,0xfd,0x05,0x8d,0xfd],
  [0x3c,0xaa,0xa3,0xe8,0xa9,0x9f,0x9d,0xeb,0x50,0xf3,0xaf,0x57,0xad,0xf6,0x22,0xaa],
  [0x5e,0x39,0x0f,0x7d,0xf7,0xa6,0x92,0x96,0xa7,0x55,0x3d,0xc1,0x0a,0xa3,0x1f,0x6b],
  [0x14,0xf9,0x70,0x1a,0xe3,0x5f,0xe2,0x8c,0x44,0x0a,0xdf,0x4d,0x4e,0xa9,0xc0,0x26],
  [0x47,0x43,0x87,0x35,0xa4,0x1c,0x65,0xb9,0xe0,0x16,0xba,0xf4,0xae,0xbf,0x7a,0xd2],
  [0x54,0x99,0x32,0xd1,0xf0,0x85,0x57,0x68,0x10,0x93,0xed,0x9c,0xbe,0x2c,0x97,0x4e],
  [0x13,0x11,0x1d,0x7f,0xe3,0x94,0x4a,0x17,0xf3,0x07,0xa7,0x8b,0x4d,0x2b,0x30,0xc5]]

/-- The FIPS-197 example ciphertext `69c4e0d86a7b0430d8cdb78070b4c55a`. -/
def fips_cipher : List Nat :=
  [0x69,0xc4,0xe0,0xd8,0x6a,0x7b,0x04,0x30,0xd8,0xcd,0xb7,0x80,0x70,0xb4,0xc5,0x5a]

/-- An all-zero 16-byte block. -/
def zero_block : List Nat :=
  List.replicate 16 0

/-- An 11-entry key schedule of all-zero 16-byte round keys. -/
def zero_schedule : List (List Nat) :=
  List.replicate 11 zero_block

/-- The 16-byte round key used by the repository's own tests. -/
def key_a : List Nat :=
  [0, 2, 4, 8, 12, 1, 3, 5, 7, 9, 11, 13, 15, 2, 3, 4]

/-- A second 16-byte round key, differing from `key_a`. -/
def key_b : List Nat :=
  List.replicate 16 255

/-- A list of bytes of length 16 is a 16-tuple. -/
theorem list_length_sixteen (l : List Nat) (h : l.length = 16) :
    ∃ b0 b1 b2 b3 b4 b5 b6 b7 b8 b9 b10 b11 b12 b13 b14 b15 : Nat,
      l = [b0, b1, b2, b3, b4, b5, b6, b7, b8, b9, b10, b11, b12, b13, b14, b15] := by
  cases l with
  | nil => simp at h
  | cons b0 l =>
  cases l with
  | nil => simp at h
  | cons b1 l =>
  cases l with
  | nil => simp at h
  | cons b2 l =>
  cases l with
  | nil => simp at h
  | cons b3 l =>
  cases l with
  | nil => simp at h
  | cons b4 l =>
  cases l with
  | nil => simp at h
  | cons b5 l =>
  cases l with
  | nil => simp at h
  | cons b6 l =>
  cases l with
  | nil => simp at h
  | cons b7 l =>
  cases l with
  | nil => simp at h
  | cons b8 l =>
  cases l with
  | nil => simp at h
  | cons b9 l =>
  cases l with
  | nil => simp at h
  | cons b10 l =>
  cases l with
  | nil => simp at h
  | cons b11 l =>
  cases l with
  | nil => simp at h
  | cons b12 l =>
  cases l with
  | nil => simp at h
  | cons b13 l =>
  cases l with
  | nil => simp at h
  | cons b14 l =>
  cases l with
  | nil => simp at h
  | cons b15 l =>
  cases l with
  | nil => exact ⟨b0, b1, b2, b3, b4, b5, b6, b7, b8, b9, b10, b11, b12, b13, b14, b15, rfl⟩
  | cons b16 l => simp at h

/-- XOR on `Nat` commutes past one argument. -/
theorem xor_lcomm (a b c : Nat) : a ^^^ (b ^^^ c) = b ^^^ (a ^^^ c) := by
  rw [← Nat.xor_assoc, Nat.xor_comm a b, Nat.xor_assoc]

/-- Claim C1: the claim says `encrypt` computes the spec's round sequence
(round `i` uses `schedule[i]` and the final round omits MixColumns).  It does
not: already on the FIPS-197 plaintext and schedule the code's output differs
from the spec's round sequence, because the loop XORs `roundkeys[idx]` for
`idx = 0 .. N-2` (reusing key 0, never touching key `N-1`) and its final-round
test `idx != roundkeys.len() - 1` never fires, so MixColumns is applied in
every round. -/
theorem c1_encrypt_deviates_from_spec_sequence :
    encrypt fips_plain fips_schedule ≠ spec_round_sequence fips_plain fips_schedule := by
  decide

/-- Claim C2: the claim says `decrypt (encrypt p ks) ks = p`.  The code's
`decrypt` is a stub returning its input unchanged, so the round trip returns
the ciphertext, not the plaintext: it fails already on the all-zero block
under the all-zero 11-key schedule. -/
theorem c2_roundtrip_fails :
    decrypt (encrypt zero_block zero_schedule) zero_schedule [] ≠ zero_block := by
  decide

/-- Claim C3: the claim says the FIPS-197 known-answer vector holds.  The
code's `encrypt` instead maps the FIPS plaintext and schedule to
`b86000118 08f e036 ...`, namely the bytes listed here, not to
`69c4e0d86a7b0430d8cdb78070b4c55a`. -/
theorem c3_known_answer_vector_fails :
    encrypt fips_plain fips_schedule =
      [184, 96, 0, 17, 128, 143, 224, 54, 82, 7, 18, 13, 188, 91, 63, 199] ∧
    encrypt fips_plain fips_schedule ≠ fips_cipher := by
  constructor
  · decide
  · decide

/-- Claim C4: for any two same-length schedules (length at least 2, all keys
16 bytes) that agree on every round key except the last, `encrypt` produces
the same ciphertext: the loop only ever reads `roundkeys[idx]` for
`idx ≤ N-2`, so the final round key is never read. -/
theorem c4_encrypt_ignores_last_roundkey (b : List Nat) (ks1 ks2 : List (List Nat))
    (hb : b.length = 16) (hN : 2 ≤ ks1.length) (hlen : ks1.length = ks2.length)
    (hk1 : ∀ k ∈ ks1, k.length = 16) (hk2 : ∀ k ∈ ks2, k.length = 16)
    (hagree : ∀ i ∈ List.range (ks1.length - 1), ks1.getD i [] = ks2.getD i []) :
    encrypt b ks1 = encrypt b ks2 := by
  unfold encrypt
  rw [← hlen]
  have h0 : ks1.getD 0 [] = ks2.getD 0 [] := by
    apply hagree
    rw [List.mem_range]
    omega
  rw [← h0]
  apply List.foldl_ext
  intro a idx hidx
  rw [hagree idx hidx]

/-- Witness for C4 at the block `[0..15]` and the length-2 schedules
`[key_a, key_a]` and `[key_a, key_b]`, which differ exactly in the last key. -/
theorem c4_witness :
    (([0, 1, 2, 3, 4, 5, 6, 7, 8, 9, 10, 11, 12, 13, 14, 15] : List Nat).length = 16 ∧
      2 ≤ ([key_a, key_a] : List (List Nat)).length ∧
      ([key_a, key_a] : List (List Nat)).length = ([key_a, key_b] : List (List Nat)).length ∧
      (∀ k ∈ ([key_a, key_a] : List (List Nat)), k.length = 16) ∧
      (∀ k ∈ ([key_a, key_b] : List (List Nat)), k.length = 16) ∧
      (∀ i ∈ List.range (([key_a, key_a] : List (List Nat)).length - 1),
        ([key_a, key_a] : List (List Nat)).getD i [] =
          ([key_a, key_b] : List (List Nat)).getD i [])) ∧
    encrypt [0, 1, 2, 3, 4, 5, 6, 7, 8, 9, 10, 11, 12, 13, 14, 15] [key_a, key_a] =
      encrypt [0, 1, 2, 3, 4, 5, 6, 7, 8, 9, 10, 11, 12, 13, 14, 15] [key_a, key_b] :=
  ⟨⟨by decide, by decide, by decide, by decide, by decide, by decide⟩,
    c4_encrypt_ignores_last_roundkey _ _ _ (by decide) (by decide) (by decide)
      (by decide) (by decide) (by decide)⟩

/-- Claim C5: the claim says `encrypt` fails with `InvalidKeySchedule` when
the schedule length is not 11, 13 or 15.  The code performs no validation and
has no error type at all: with a 2-key schedule it happily returns a 16-byte
ciphertext block. -/
theorem c5_encrypt_accepts_invalid_schedule_length :
    ([key_a, key_a] : List (List Nat)).length = 2 ∧
      (encrypt zero_block [key_a, key_a]).length = 16 := by
  constructor
  · decide
  · decide

/-- Claim C6: the claim says the plaintext constructor fails with
`InvalidLength` on inputs that are not 16 bytes.  `AESBlock::new` stores any
byte vector unchecked: on the 3-byte input `[1, 2, 3]` it produces a block
whose grid has length 3. -/
theorem c6_new_accepts_wrong_length :
    new [1, 2, 3] = [1, 2, 3] ∧ (new [1, 2, 3]).length ≠ 16 := by
  constructor
  · decide
  · decide

/-- Claim C7: `add_roundkey` XORs the block and the round key position for
position, and applying the same round key twice restores the block. -/
theorem c7_add_roundkey_xor_involution (b k : List Nat)
    (hb : b.length = 16) (hk : k.length = 16) :
    (∀ i, i < 16 → (add_roundkey b k).getD i 0 = (b.getD i 0) ^^^ (k.getD i 0)) ∧
      add_roundkey (add_roundkey b k) k = b := by
  obtain ⟨b0, b1, b2, b3, b4, b5, b6, b7, b8, b9, b10, b11, b12, b13, b14, b15, rfl⟩ :=
    list_length_sixteen b hb
  obtain ⟨k0, k1, k2, k3, k4, k5, k6, k7, k8, k9, k10, k11, k12, k13, k14, k15, rfl⟩ :=
    list_length_sixteen k hk
  constructor
  · intro i hi
    interval_cases i <;> rfl
  · show [_, _, _, _, _, _, _, _, _, _, _, _, _, _, _, _] = _
    simp [add_roundkey, Nat.xor_assoc]

/-- Witness for C7 at the repository's own test block and round key. -/
theorem c7_witness :
    (([0, 1, 2, 3, 4, 5, 6, 7, 8, 9, 10, 11, 12, 13, 14, 15] : List Nat).length = 16 ∧
      key_a.length = 16) ∧
    ((∀ i, i < 16 →
        (add_roundkey [0, 1, 2, 3, 4, 5, 6, 7, 8, 9, 10, 11, 12, 13, 14, 15] key_a).getD i 0 =
          (([0, 1, 2, 3, 4, 5, 6, 7, 8, 9, 10, 11, 12, 13, 14, 15] : List Nat).getD i 0) ^^^
            (key_a.getD i 0)) ∧
      add_roundkey (add_roundkey [0, 1, 2, 3, 4, 5, 6, 7, 8, 9, 10, 11, 12, 13, 14, 15] key_a)
          key_a =
        [0, 1, 2, 3, 4, 5, 6, 7, 8, 9, 10, 11, 12, 13, 14, 15]) :=
  ⟨⟨by decide, by decide⟩,
    c7_add_roundkey_xor_involution _ _ (by decide) (by decide)⟩

/-- Claim C8: on a 16-byte grid read as 4 rows of 4 bytes in row-major order,
`shift_grid` left-rotates row `r` by `r` positions (row 0 unchanged), and
`shift_row` sends `[1,2,3,4]` with shift 2 to `[3,4,1,2]` and with shift 3 to
`[4,1,2,3]`. -/
theorem c8_shift_grid_rotates_rows (l : List Nat) (h : l.length = 16)
    (r : Nat) (hr : r < 4) :
    ((shift_grid l).drop (4 * r)).take 4 = ((l.drop (4 * r)).take 4).rotateLeft r ∧
      shift_row [1, 2, 3, 4] 2 = [3, 4, 1, 2] ∧
      shift_row [1, 2, 3, 4] 3 = [4, 1, 2, 3] := by
  obtain ⟨b0, b1, b2, b3, b4, b5, b6, b7, b8, b9, b10, b11, b12, b13, b14, b15, rfl⟩ :=
    list_length_sixteen l h
  refine ⟨?_, by decide, by decide⟩
  simp only [shift_grid, chunks4, List.enum, List.enumFrom, List.map_cons, List.map_nil,
    shift_row, List.length_cons, List.length_nil, Nat.reduceAdd, List.flatten]
  interval_cases r <;> rfl

/-- Witness for C8 at the grid `[0..15]` and row index 2. -/
theorem c8_witness :
    (([0, 1, 2, 3, 4, 5, 6, 7, 8, 9, 10, 11, 12, 13, 14, 15] : List Nat).length = 16 ∧
      2 < 4) ∧
    (((shift_grid [0, 1, 2, 3, 4, 5, 6, 7, 8, 9, 10, 11, 12, 13, 14, 15]).drop (4 * 2)).take 4 =
        ((([0, 1, 2, 3, 4, 5, 6, 7, 8, 9, 10, 11, 12, 13, 14, 15] : List Nat).drop
            (4 * 2)).take 4).rotateLeft 2 ∧
      shift_row [1, 2, 3, 4] 2 = [3, 4, 1, 2] ∧
      shift_row [1, 2, 3, 4] 3 = [4, 1, 2, 3]) :=
  ⟨⟨by decide, by decide⟩,
    c8_shift_grid_rotates_rows _ (by decide) 2 (by decide)⟩

/-- Claim C9: `mix_columns` replaces column `j` of the 16-byte grid by
`mix_column` of that column; `mix_column` computes the AES MDS matrix product
`[2 3 1 1; 1 2 3 1; 1 1 2 3; 3 1 1 2]` over GF(2^8) with doubling `xtime`;
and the column `[219,19,83,69]` mixes to `[142,77,161,188]`. -/
theorem c9_mix_columns_mds (l : List Nat) (h : l.length = 16) (j : Nat) (hj : j < 4) :
    col (mix_columns l) j = mix_column (col l j) ∧
      (∀ a0 a1 a2 a3 : Nat,
        mix_column [a0, a1, a2, a3] =
          [ xtime a0 ^^^ (xtime a1 ^^^ a1) ^^^ a2 ^^^ a3,
            a0 ^^^ xtime a1 ^^^ (xtime a2 ^^^ a2) ^^^ a3,
            a0 ^^^ a1 ^^^ xtime a2 ^^^ (xtime a3 ^^^ a3),
            (xtime a0 ^^^ a0) ^^^ a1 ^^^ a2 ^^^ xtime a3 ]) ∧
      mix_column [219, 19, 83, 69] = [142, 77, 161, 188] := by
  refine ⟨?_, ?_, by decide⟩
  · interval_cases j <;> rfl
  · intro a0 a1 a2 a3
    simp only [mix_column, List.map_cons, List.map_nil, List.getD, List.get?]
    norm_num
    refine ⟨?_, ?_, ?_, ?_⟩ <;> simp [Nat.xor_assoc, Nat.xor_comm, xor_lcomm]

/-- Witness for C9 at the grid `[0..15]` and column index 1. -/
theorem c9_witness :
    (([0, 1, 2, 3, 4, 5, 6, 7, 8, 9, 10, 11, 12, 13, 14, 15] : List Nat).length = 16 ∧
      1 < 4) ∧
    (col (mix_columns [0, 1, 2, 3, 4, 5, 6, 7, 8, 9, 10, 11, 12, 13, 14, 15]) 1 =
        mix_column (col [0, 1, 2, 3, 4, 5, 6, 7, 8, 9, 10, 11, 12, 13, 14, 15] 1) ∧
      (∀ a0 a1 a2 a3 : Nat,
        mix_column [a0, a1, a2, a3] =
          [ xtime a0 ^^^ (xtime a1 ^^^ a1) ^^^ a2 ^^^ a3,
            a0 ^^^ xtime a1 ^^^ (xtime a2 ^^^ a2) ^^^ a3,
            a0 ^^^ a1 ^^^ xtime a2 ^^^ (xtime a3 ^^^ a3),
            (xtime a0 ^^^ a0) ^^^ a1 ^^^ a2 ^^^ xtime a3 ]) ∧
      mix_column [219, 19, 83, 69] = [142, 77, 161, 188]) :=
  ⟨⟨by decide, by decide⟩,
    c9_mix_columns_mds _ (by decide) 1 (by decide)⟩

/-- Claim C10: the fixed S-box is a permutation of the byte values 0..255, and
`sub_bytes` keeps the length of the block and replaces the byte at each
in-bounds position by its S-box entry. -/
theorem c10_sbox_permutation_sub_bytes (data : List Nat) (i : Nat)
    (hi : i < data.length) :
    sBox.Perm (List.range 256) ∧
      (sub_bytes data).length = data.length ∧
      (sub_bytes data).getD i 0 = sBox.getD (data.getD i 0) 0 := by
  refine ⟨by decide, by simp [sub_bytes], ?_⟩
  simp [sub_bytes, List.getD_eq_getElem?_getD, List.getElem?_map, List.getElem?_range, hi]

/-- Witness for C10 at the FIPS plaintext and position 0. -/
theorem c10_witness :
    (0 < fips_plain.length) ∧
    (sBox.Perm (List.range 256) ∧
      (sub_bytes fips_plain).length = fips_plain.length ∧
      (sub_bytes fips_plain).getD 0 0 = sBox.getD (fips_plain.getD 0 0) 0) :=
  ⟨by decide, c10_sbox_permutation_sub_bytes fips_plain 0 (by decide)⟩
